import Mathlib

/-!
Verification development for the casics/common repository core:
the repository-metadata record model (`casics.py`) and the sharded
cache/path-addressing scheme (`path.py`, `cache.py`), embedded shallowly.
-/

set_option maxHeartbeats 1000000

/-! ## Python value model -/

/-- Model of the Python values flowing through the record model:
`None`, booleans, integers, strings, lists and string-keyed dicts. -/
inductive PyVal : Type where
  | none : PyVal
  | bool : Bool → PyVal
  | int : Int → PyVal
  | str : String → PyVal
  | list : List PyVal → PyVal
  | dict : List (String × PyVal) → PyVal

/-- Python truthiness of a value (`bool(v)`). -/
def truthy : PyVal → Bool
  | .none => false
  | .bool b => b
  | .int n => n != 0
  | .str s => s != ""
  | .list xs => !xs.isEmpty
  | .dict kvs => !kvs.isEmpty

/-- Python `v == False`: true for `False` and for the number `0`. -/
def pyEqFalse : PyVal → Bool
  | .bool b => !b
  | .int n => n == 0
  | _ => false

/-- Exception kinds that the embedded operations can raise. -/
inductive PyErr : Type where
  | typeError : PyErr
  | keyError : PyErr
  | unpicklingError : PyErr
  deriving DecidableEq

/-- Python `+` restricted to the shapes the embedded code can reach:
string concatenation and integer addition succeed, any other pairing
(in particular `None + str`) raises `TypeError`. -/
def pyAdd : PyVal → PyVal → Except PyErr PyVal
  | .str a, .str b => .ok (.str (a ++ b))
  | .int a, .int b => .ok (.int (a + b))
  | _, _ => .error .typeError

/-- Look a key up in a dict value (`None` result when absent or not a dict). -/
def dictGet (v : PyVal) (k : String) : Option PyVal :=
  match v with
  | .dict kvs => kvs.lookup k
  | _ => Option.none

/-- Python subscript `v[k]` on a dict: `KeyError` when the key is absent. -/
def pySubscript (v : PyVal) (k : String) : Except PyErr PyVal :=
  match dictGet v k with
  | some x => .ok x
  | Option.none => .error .keyError

/-- Is the value a dict (a record)? -/
def isDict : PyVal → Bool
  | .dict _ => true
  | _ => false

/-! ## String and path helpers (`os.path.join`, slicing, formatting) -/

/-- Model of Python `s.startswith('/')`. -/
def strStartsWithSlash (s : String) : Bool := s.data.head? == some '/'

/-- Model of Python `s.endswith('/')`. -/
def strEndsWithSlash (s : String) : Bool := s.data.getLast? == some '/'

/-- Model of POSIX `os.path.join(a, b)`: an absolute second component
replaces the first; otherwise the parts are joined with `/` unless the
first already ends in `/` or is empty. -/
def osPathJoin (a b : String) : String :=
  if strStartsWithSlash b then b
  else if a == "" || strEndsWithSlash a then a ++ b
  else a ++ "/" ++ b

/-- Decimal digits of a natural number, most significant first, with a
structural fuel so that the definition computes by kernel reduction. -/
def toDecAux : Nat → Nat → List Char
  | 0, _ => []
  | fuel + 1, n =>
    if n < 10 then [Nat.digitChar n]
    else toDecAux fuel (n / 10) ++ [Nat.digitChar (n % 10)]

/-- Decimal representation of a natural number as a list of digit chars. -/
def natDecRepr (n : Nat) : List Char := toDecAux (n + 1) n

/-- Model of Python `'{:08}'.format(n)` for an integer `n`: sign-aware
zero padding to a total width of 8. -/
def format08 (n : Int) : String :=
  if n < 0 then
    String.mk ('-' :: (List.replicate (7 - (natDecRepr n.natAbs).length) '0' ++ natDecRepr n.natAbs))
  else
    String.mk (List.replicate (8 - (natDecRepr n.toNat).length) '0' ++ natDecRepr n.toNat)

/-- Model of Python slicing `s[a:b]` for `a ≤ b`. -/
def pySlice (s : String) (a b : Nat) : String :=
  String.mk ((s.data.drop a).take (b - a))

/-- Numeric value of a list of decimal digit characters. -/
def decodeDec (l : List Char) : Nat :=
  l.foldl (fun a c => 10 * a + (c.toNat - 48)) 0

/-- Is the character a decimal digit `'0'..'9'`? -/
def isDigitCh (c : Char) : Bool := 48 ≤ c.toNat && c.toNat ≤ 57

namespace PathPy

/-- `generate_path` from `src/path.py`: formats the id as `'{:08}'`,
slices the result into four two-character groups and joins them under
`root` with `os.path.join`. -/
def generate_path (root : String) (repo_id : Int) : String :=
  let s := format08 repo_id
  osPathJoin (osPathJoin (osPathJoin (osPathJoin root (pySlice s 0 2)) (pySlice s 2 4)) (pySlice s 4 6)) (pySlice s 6 8)

end PathPy

namespace CasicsPy

/-- `generate_path` from `src/casics.py` (the duplicated copy): formats
the id as `'{:08}'`, slices the result into four two-character groups
and joins them under `root` with `os.path.join`. -/
def generate_path (root : String) (repo_id : Int) : String :=
  let s := format08 repo_id
  osPathJoin (osPathJoin (osPathJoin (osPathJoin root (pySlice s 0 2)) (pySlice s 2 4)) (pySlice s 4 6)) (pySlice s 6 8)

end CasicsPy

/-! ## Cache store (`src/cache.py`) -/

/-- `cache_dir` from `src/cache.py`: strips one trailing `'/'` if present
and appends the literal suffix `'.casics_cache'`. -/
def cache_dir (orig_dir : String) : String :=
  let path := if strEndsWithSlash orig_dir then String.mk orig_dir.data.dropLast else orig_dir
  path ++ ".casics_cache"

/-- `cache_file` from `src/cache.py`: `os.path.join(cache_dir(d), name + '.pickle')`. -/
def cache_file (orig_dir cache_name : String) : String :=
  osPathJoin (cache_dir orig_dir) (cache_name ++ ".pickle")

/-- A stored blob: either the pickled form of a value, or garbage bytes. -/
inductive Blob : Type where
  | pickled : PyVal → Blob
  | garbage : Blob

/-- Abstract model of `pickle.dump`: serialization of a value. -/
def pickle_dumps (v : PyVal) : Blob := .pickled v

/-- Abstract model of `pickle.load`: recovers the value from its pickled
form; garbage raises an unpickling error. -/
def pickle_loads : Blob → Except PyErr PyVal
  | .pickled v => .ok v
  | .garbage => .error .unpicklingError

/-- Filesystem state: the set of directories created and the files
present, as an association list from path to blob (latest write first). -/
structure FS where
  dirs : List String
  files : List (String × Blob)

/-- `os.makedirs(d, exist_ok=True)` on the state. -/
def FS.addDir (fs : FS) (d : String) : FS := { fs with dirs := d :: fs.dirs }

/-- Writing a blob to a path (atomically replacing any previous content). -/
def FS.putFile (fs : FS) (f : String) (b : Blob) : FS :=
  { fs with files := (f, b) :: fs.files }

/-- Reading a path: the latest blob written there, if any. -/
def FS.getFile (fs : FS) (f : String) : Option Blob := fs.files.lookup f

/-- Exception classes that the underlying operations of a cache write can
raise: `OSError` (= `IOError`) from `os.makedirs`/`open`, `PickleError`
from `pickle.dump`, or `TypeError` (also raised by `pickle.dump` on
unpicklable objects such as generators). -/
inductive ExcClass : Type where
  | osError : ExcClass
  | picklingError : ExcClass
  | typeError : ExcClass
  deriving DecidableEq

/-- Does `except IOError` match the raised class? -/
def isIOError : ExcClass → Bool
  | .osError => true
  | _ => false

/-- Does `except PickleError` match the raised class? -/
def isPickleError : ExcClass → Bool
  | .picklingError => true
  | _ => false

/-- Outcome of the `except` clauses of `save_cached_value`: an exception
matched by `except IOError` or `except PickleError` is logged and
swallowed; any other class propagates to the caller. -/
def handleExc (e : ExcClass) : Option ExcClass :=
  if isIOError e then Option.none
  else if isPickleError e then Option.none
  else some e

/-- Environment oracle for one call to `save_cached_value`: whether each
underlying operation (`os.makedirs`, `open`, `pickle.dump`) raises, and
with which class. `none` means the operation succeeds. -/
structure WriteOutcome where
  makedirsExc : Option ExcClass
  openExc : Option ExcClass
  dumpExc : Option ExcClass
  deriving DecidableEq

/-- The all-success oracle. -/
def noWriteErrors : WriteOutcome := ⟨Option.none, Option.none, Option.none⟩

/-- The first exception (if any) raised inside the `try` block of
`save_cached_value`: `os.makedirs`, then `open`, then `pickle.dump`. -/
def firstExc (w : WriteOutcome) : Option ExcClass :=
  match w.makedirsExc with
  | some e => some e
  | Option.none =>
    match w.openExc with
    | some e => some e
    | Option.none => w.dumpExc

/-- `save_cached_value` from `src/cache.py`: computes the cache dir and
file, creates the directory, opens the file and dumps the pickled value;
the `try` block's exception (if any) is filtered by the two `except`
clauses. Returns the new state and the exception that propagates, if
any. -/
def save_cached_value (w : WriteOutcome) (fs : FS) (orig_dir cache_name : String) (v : PyVal) : FS × Option ExcClass :=
  let dest_dir := cache_dir orig_dir
  let dest_file := cache_file orig_dir cache_name
  match w.makedirsExc with
  | some e => (fs, handleExc e)
  | Option.none =>
    let fs1 := fs.addDir dest_dir
    match w.openExc with
    | some e => (fs1, handleExc e)
    | Option.none =>
      match w.dumpExc with
      | some e => (fs1, handleExc e)
      | Option.none => (fs1.putFile dest_file (pickle_dumps v), Option.none)

/-- `cached_value` from `src/cache.py`: returns `None` if the cache file
does not exist; otherwise unpickles it, returning `None` on any
unpickling failure. -/
def cached_value (fs : FS) (orig_dir cache_name : String) : Option PyVal :=
  let cache := cache_file orig_dir cache_name
  match fs.getFile cache with
  | Option.none => Option.none
  | some blob =>
    match pickle_loads blob with
    | .ok v => some v
    | .error _ => Option.none

/-! ## Record model (`src/casics.py`) -/

/-- `make_fork` from `src/casics.py`. -/
def make_fork (fork_parent fork_root : PyVal) : PyVal :=
  .dict [("parent", fork_parent), ("root", fork_root)]

/-- `make_languages` from `src/casics.py`: wraps a non-list argument in a
singleton list, then maps each element to a `{'name': element}` dict. -/
def make_languages (langs : PyVal) : PyVal :=
  let l : List PyVal := match langs with
    | .list xs => xs
    | v => [v]
  .list (l.map (fun lang => .dict [("name", lang)]))

/-- `make_topics` from `src/casics.py`. -/
def make_topics (ontology : String) (topics : PyVal) : PyVal :=
  .dict [(ontology, topics)]

/-- `repo_entry` from `src/casics.py`: builds the record dict, computing
the `fork` field from `is_fork`/`fork_of`/`fork_root` and defaulting a
falsy `topics` to `make_topics('lcsh', [])`. Parameters appear in the
source's order. -/
def repo_entry (id name owner description readme text_languages languages licenses files content_type kind interfaces topics functions notes num_commits num_releases num_branches num_contributors default_branch homepage is_deleted is_visible is_fork fork_of fork_root created last_updated last_pushed data_refreshed : PyVal) : PyVal :=
  let fork_field : PyVal :=
    if pyEqFalse is_fork then .bool false
    else if !truthy is_fork then .list []
    else make_fork fork_of fork_root
  let topics := if !truthy topics then make_topics "lcsh" (.list []) else topics
  .dict [("_id", id),
         ("owner", owner),
         ("name", name),
         ("description", description),
         ("readme", readme),
         ("text_languages", text_languages),
         ("languages", languages),
         ("licenses", licenses),
         ("files", files),
         ("content_type", content_type),
         ("kind", kind),
         ("interfaces", interfaces),
         ("topics", topics),
         ("notes", notes),
         ("functions", functions),
         ("num_commits", num_commits),
         ("num_releases", num_releases),
         ("num_branches", num_branches),
         ("num_contributors", num_contributors),
         ("is_visible", is_visible),
         ("is_deleted", is_deleted),
         ("fork", fork_field),
         ("time", .dict [("repo_created", created),
                         ("repo_updated", last_updated),
                         ("repo_pushed", last_pushed),
                         ("data_refreshed", data_refreshed)]),
         ("default_branch", default_branch),
         ("homepage", homepage)]

/-- `repo_entry` called with only `id`, `name` and `owner` supplied: all
remaining arguments take the Python defaults from the source signature. -/
def repo_entry_named (id name owner : PyVal) : PyVal :=
  repo_entry id name owner PyVal.none PyVal.none (.list []) (.list []) (.list []) (.list []) (.list []) (.list []) (.list []) (.list []) (.list []) PyVal.none PyVal.none PyVal.none PyVal.none PyVal.none PyVal.none PyVal.none PyVal.none PyVal.none PyVal.none PyVal.none PyVal.none PyVal.none PyVal.none PyVal.none PyVal.none

/-- `repo_entry(id)` with every other argument defaulted. -/
def repo_entry_with_id (id : PyVal) : PyVal :=
  repo_entry_named id PyVal.none PyVal.none

/-- `e_path` from `src/casics.py`: `entry['owner'] + '/' + entry['name']`,
with Python's left-to-right evaluation and exception behavior. -/
def e_path (entry : PyVal) : Except PyErr PyVal := do
  let o ← pySubscript entry "owner"
  let t ← pyAdd o (.str "/")
  let n ← pySubscript entry "name"
  pyAdd t n

/-! ## Helper lemmas on decimal representations and lists -/

theorem digitChar_toNat {n : Nat} (h : n < 10) : (Nat.digitChar n).toNat = 48 + n := by
  interval_cases n <;> rfl

theorem isDigitCh_digitChar {n : Nat} (h : n < 10) : isDigitCh (Nat.digitChar n) = true := by
  interval_cases n <;> rfl

theorem decodeDec_append_singleton (l : List Char) (c : Char) :
    decodeDec (l ++ [c]) = 10 * decodeDec l + (c.toNat - 48) := by
  simp [decodeDec, List.foldl_append]

theorem toDecAux_decode : ∀ fuel n, n < 10 ^ fuel → decodeDec (toDecAux fuel n) = n
  | 0, n, h => by
      have hn : n = 0 := by simpa using h
      subst hn; rfl
  | fuel + 1, n, h => by
      by_cases h10 : n < 10
      · simp [toDecAux, h10, decodeDec, digitChar_toNat h10]
      · have hdiv : n / 10 < 10 ^ fuel := by
          rw [Nat.div_lt_iff_lt_mul (by norm_num)]
          calc n < 10 ^ (fuel + 1) := h
            _ = 10 ^ fuel * 10 := by ring
        have ih := toDecAux_decode fuel (n / 10) hdiv
        have hmod : n % 10 < 10 := Nat.mod_lt n (by norm_num)
        rw [toDecAux]
        simp only [h10, if_false]
        rw [decodeDec_append_singleton, ih, digitChar_toNat hmod]
        omega

theorem toDecAux_length : ∀ fuel n k, n < 10 ^ k → 1 ≤ k → (toDecAux fuel n).length ≤ k
  | 0, _, _, _, _ => by simp [toDecAux]
  | fuel + 1, n, k, hn, hk => by
      by_cases h10 : n < 10
      · simp [toDecAux, h10]; omega
      · obtain ⟨j, rfl⟩ : ∃ j, k = j + 1 := ⟨k - 1, by omega⟩
        have hj : 1 ≤ j := by
          by_contra hj
          have hj0 : j = 0 := by omega
          subst hj0
          simp at hn
          omega
        have hdiv : n / 10 < 10 ^ j := by
          rw [Nat.div_lt_iff_lt_mul (by norm_num)]
          calc n < 10 ^ (j + 1) := hn
            _ = 10 ^ j * 10 := by ring
        have ih := toDecAux_length fuel (n / 10) j hdiv hj
        rw [toDecAux]
        simp only [h10, if_false, List.length_append, List.length_singleton]
        omega

theorem toDecAux_digits : ∀ fuel n, (toDecAux fuel n).all isDigitCh = true
  | 0, _ => rfl
  | fuel + 1, n => by
      by_cases h10 : n < 10
      · simp [toDecAux, h10, isDigitCh_digitChar h10]
      · have hmod : n % 10 < 10 := Nat.mod_lt n (by norm_num)
        simp [toDecAux, h10, List.all_append, toDecAux_digits fuel (n / 10),
              isDigitCh_digitChar hmod]

theorem decodeDec_replicate_zero (m : Nat) (l : List Char) :
    decodeDec (List.replicate m '0' ++ l) = decodeDec l := by
  induction m with
  | zero => simp
  | succ m ih =>
      rw [List.replicate_succ, List.cons_append]
      simpa [decodeDec] using ih

theorem all_digit_replicate_zero (m : Nat) :
    (List.replicate m '0').all isDigitCh = true := by
  induction m with
  | zero => rfl
  | succ m ih => simp [List.replicate_succ, ih]; rfl

theorem take_two_chain (l : List Char) (h : l.length = 8) :
    l.take 2 ++ ((l.drop 2).take 2 ++ ((l.drop 4).take 2 ++ (l.drop 6).take 2)) = l := by
  have h6 : (l.drop 6).length = 2 := by simp [h]
  have e4 : (l.drop 6).take 2 = l.drop 6 := List.take_of_length_le (by omega)
  have e34 : (l.drop 4).take 2 ++ l.drop 6 = l.drop 4 := by
    have hd : l.drop 6 = (l.drop 4).drop 2 := by simp [List.drop_drop]
    rw [hd, List.take_append_drop]
  have e234 : (l.drop 2).take 2 ++ l.drop 4 = l.drop 2 := by
    have hd : l.drop 4 = (l.drop 2).drop 2 := by simp [List.drop_drop]
    rw [hd, List.take_append_drop]
  calc l.take 2 ++ ((l.drop 2).take 2 ++ ((l.drop 4).take 2 ++ (l.drop 6).take 2))
      = l.take 2 ++ ((l.drop 2).take 2 ++ l.drop 4) := by rw [e4, e34]
    _ = l.take 2 ++ l.drop 2 := by rw [e234]
    _ = l := List.take_append_drop 2 l

theorem string_data_append (a b : String) : (a ++ b).data = a.data ++ b.data := rfl

theorem string_mk_data (s : String) : String.mk s.data = s := rfl

theorem natDecRepr_decode (n : Nat) : decodeDec (natDecRepr n) = n := by
  apply toDecAux_decode
  calc n < 10 ^ n := Nat.lt_pow_self (by norm_num) n
    _ ≤ 10 ^ (n + 1) := Nat.pow_le_pow_right (by norm_num) (by omega)

theorem natDecRepr_length_le {n k : Nat} (hn : n < 10 ^ k) (hk : 1 ≤ k) :
    (natDecRepr n).length ≤ k :=
  toDecAux_length (n + 1) n k hn hk

/-! ## Claim theorems -/

/-- Claim C1: for every integer id with 0 ≤ id ≤ 99,999,999,
`generate_path root id` is `root` joined (by `os.path.join`) with four
two-character segments whose concatenation is the zero-padded 8-digit
decimal representation of `id` (8 digit characters decoding to `id`);
in particular `generate_path "/data" 7182480 = "/data/07/18/24/80"`. -/
theorem generate_path_shards_valid_ids (root : String) (id : Int)
    (h0 : 0 ≤ id) (h1 : id ≤ 99999999) :
    (∃ a b c d : String,
      a.length = 2 ∧ b.length = 2 ∧ c.length = 2 ∧ d.length = 2 ∧
      PathPy.generate_path root id =
        osPathJoin (osPathJoin (osPathJoin (osPathJoin root a) b) c) d ∧
      (a ++ b ++ c ++ d).length = 8 ∧
      (a ++ b ++ c ++ d).data.all isDigitCh = true ∧
      decodeDec (a ++ b ++ c ++ d).data = id.toNat) ∧
    PathPy.generate_path "/data" 7182480 = "/data/07/18/24/80" := by
  refine ⟨?_, by decide⟩
  have hneg : ¬ id < 0 := by omega
  set n : Nat := id.toNat with hn_def
  have hn : n < 10 ^ 8 := by omega
  set ds : List Char := natDecRepr n with hds
  have hdsl : ds.length ≤ 8 := natDecRepr_length_le hn (by norm_num)
  set p : List Char := List.replicate (8 - ds.length) '0' ++ ds with hp_def
  have hs : format08 id = String.mk p := by
    simp [format08, hneg, hp_def, hds]
  have hp_len : p.length = 8 := by
    simp only [hp_def, List.length_append, List.length_replicate]
    omega
  refine ⟨pySlice (format08 id) 0 2, pySlice (format08 id) 2 4,
          pySlice (format08 id) 4 6, pySlice (format08 id) 6 8, ?_, ?_, ?_, ?_, ?_, ?_, ?_, ?_⟩
  · simp [pySlice, hs, List.length_take, hp_len]
  · simp [pySlice, hs, List.length_take, List.length_drop, hp_len]
  · simp [pySlice, hs, List.length_take, List.length_drop, hp_len]
  · simp [pySlice, hs, List.length_take, List.length_drop, hp_len]
  · rfl
  · have hdata : (pySlice (format08 id) 0 2 ++ pySlice (format08 id) 2 4 ++
        pySlice (format08 id) 4 6 ++ pySlice (format08 id) 6 8).data = p := by
      simp [string_data_append, pySlice, hs]
      exact take_two_chain p hp_len
    exact (congrArg List.length hdata).trans hp_len
  · have hdata : (pySlice (format08 id) 0 2 ++ pySlice (format08 id) 2 4 ++
        pySlice (format08 id) 4 6 ++ pySlice (format08 id) 6 8).data = p := by
      simp [string_data_append, pySlice, hs]
      exact take_two_chain p hp_len
    rw [hdata, hp_def, List.all_append, all_digit_replicate_zero, Bool.true_and, hds]
    exact toDecAux_digits (n + 1) n
  · have hdata : (pySlice (format08 id) 0 2 ++ pySlice (format08 id) 2 4 ++
        pySlice (format08 id) 4 6 ++ pySlice (format08 id) 6 8).data = p := by
      simp [string_data_append, pySlice, hs]
      exact take_two_chain p hp_len
    rw [hdata, hp_def, decodeDec_replicate_zero, hds]
    exact natDecRepr_decode n

/-- Witness for claim C1 at `root = "/data"`, `id = 7182480`. -/
theorem generate_path_shards_valid_ids_witness :
    (∃ a b c d : String,
      a.length = 2 ∧ b.length = 2 ∧ c.length = 2 ∧ d.length = 2 ∧
      PathPy.generate_path "/data" 7182480 =
        osPathJoin (osPathJoin (osPathJoin (osPathJoin "/data" a) b) c) d ∧
      (a ++ b ++ c ++ d).length = 8 ∧
      (a ++ b ++ c ++ d).data.all isDigitCh = true ∧
      decodeDec (a ++ b ++ c ++ d).data = (7182480 : Int).toNat) ∧
    PathPy.generate_path "/data" 7182480 = "/data/07/18/24/80" :=
  generate_path_shards_valid_ids "/data" 7182480 (by decide) (by decide)

/-- Claim C2: contrary to the claim, `generate_path` performs no range
check: at id = 100,000,000 it silently drops the ninth digit and
returns the same path as id = 10,000,000 (breaking the id-to-path
correspondence stated in the function's own docstring), and at id = -1
it returns a path containing a minus sign instead of failing. -/
theorem generate_path_out_of_range_no_raise :
    PathPy.generate_path "/data" 100000000 = "/data/10/00/00/00" ∧
    PathPy.generate_path "/data" 100000000 = PathPy.generate_path "/data" 10000000 ∧
    PathPy.generate_path "/data" (-1) = "/data/-0/00/00/01" :=
  ⟨by decide, by decide, by decide⟩

/-- Counterexample for claim C3: the cache suffix appended by `cache_dir`
is `.casics_cache`, not `.cache`. -/
theorem cache_dir_suffix_counterexample :
    ¬ (cache_dir "/data/repos/" = "/data/repos.cache" ∧
       cache_dir "/data/repos" = "/data/repos.cache") := by
  decide

/-- Claim C3 (amended): `cache_dir` strips one trailing separator if
present and appends the fixed suffix `.casics_cache`, so
`cache_dir "/data/repos/"` and `cache_dir "/data/repos"` both equal
`"/data/repos.casics_cache"`, and for every directory string `D` not
ending in a separator, `cache_dir (D ++ "/") = cache_dir D`. -/
theorem cache_dir_amended :
    cache_dir "/data/repos/" = "/data/repos.casics_cache" ∧
    cache_dir "/data/repos" = "/data/repos.casics_cache" ∧
    ∀ D : String, strEndsWithSlash D = false → cache_dir (D ++ "/") = cache_dir D := by
  refine ⟨by decide, by decide, ?_⟩
  intro D hD
  have hdata : (D ++ "/").data = D.data ++ ['/'] := rfl
  have h1 : strEndsWithSlash (D ++ "/") = true := by
    rw [strEndsWithSlash, hdata, List.getLast?_concat]
    rfl
  simp [cache_dir, h1, hD, hdata, List.dropLast_concat, string_mk_data]

/-- Witness for claim C3 (amended) at `D = "/data/repos"`. -/
theorem cache_dir_amended_witness :
    strEndsWithSlash "/data/repos" = false ∧
    cache_dir ("/data/repos" ++ "/") = cache_dir "/data/repos" :=
  ⟨by decide, cache_dir_amended.2.2 "/data/repos" (by decide)⟩

/-- Claim C4: reading a cache name right after a successful write of
value `v` under the same primary directory and cache name returns `v`. -/
theorem cache_round_trip (fs : FS) (D k : String) (v : PyVal) :
    cached_value ((save_cached_value noWriteErrors fs D k v).1) D k = some v := by
  simp [save_cached_value, noWriteErrors, cached_value, FS.getFile, FS.putFile, FS.addDir,
        pickle_dumps, pickle_loads, List.lookup]

/-- Claim C5: `repo_entry` called with only `id = 42` yields a record
with `languages` and `fork` both the empty-container unset sentinel,
`topics` defaulted to the lcsh mapping with an empty term list, and all
four `time` sub-fields unset. -/
theorem repo_entry_default_sentinels :
    dictGet (repo_entry_with_id (.int 42)) "languages" = some (.list []) ∧
    dictGet (repo_entry_with_id (.int 42)) "fork" = some (.list []) ∧
    dictGet (repo_entry_with_id (.int 42)) "topics" = some (.dict [("lcsh", .list [])]) ∧
    dictGet (repo_entry_with_id (.int 42)) "time" =
      some (.dict [("repo_created", PyVal.none), ("repo_updated", PyVal.none),
                   ("repo_pushed", PyVal.none), ("data_refreshed", PyVal.none)]) :=
  ⟨rfl, rfl, rfl, rfl⟩

/-- Counterexample for claim C6: `repo_entry` does not reject the
non-positive id -5; it returns a record dict whose `_id` is -5. -/
theorem repo_entry_no_id_validation_counterexample :
    isDict (repo_entry_with_id (.int (-5))) = true ∧
    dictGet (repo_entry_with_id (.int (-5))) "_id" = some (.int (-5)) :=
  ⟨rfl, rfl⟩

/-- Claim C6 (amended): `repo_entry` validates nothing: for every id
value whatsoever (positive or not) it returns a record dict storing the
argument unchanged under `_id`; the construction is pure (no I/O). -/
theorem repo_entry_total_amended (id : PyVal) :
    isDict (repo_entry_with_id id) = true ∧
    dictGet (repo_entry_with_id id) "_id" = some id :=
  ⟨rfl, rfl⟩

/-- Claim C7: `e_path` on a record with owner "octo" and name "cat"
returns "octo/cat", and on any record whose `owner` (or `name`) is the
unset sentinel `None` it raises (an error result) instead of returning
a value. -/
theorem e_path_owner_name :
    e_path (repo_entry_named (.int 1) (.str "cat") (.str "octo")) = .ok (.str "octo/cat") ∧
    ∀ entry : PyVal,
      (dictGet entry "owner" = some PyVal.none ∨ dictGet entry "name" = some PyVal.none) →
      ∃ err, e_path entry = .error err := by
  refine ⟨rfl, ?_⟩
  intro entry h
  rcases ho : dictGet entry "owner" with _ | ov
  · exact ⟨.keyError, by simp [e_path, pySubscript, ho, Bind.bind, Except.bind]⟩
  · rcases h with h | h
    · rw [ho, Option.some.injEq] at h
      subst h
      exact ⟨.typeError, by simp [e_path, pySubscript, ho, pyAdd, Bind.bind, Except.bind]⟩
    · cases ov with
      | str s =>
          exact ⟨.typeError, by
            simp [e_path, pySubscript, ho, h, pyAdd, Bind.bind, Except.bind]⟩
      | none =>
          exact ⟨.typeError, by simp [e_path, pySubscript, ho, pyAdd, Bind.bind, Except.bind]⟩
      | bool b =>
          exact ⟨.typeError, by simp [e_path, pySubscript, ho, pyAdd, Bind.bind, Except.bind]⟩
      | int n =>
          exact ⟨.typeError, by simp [e_path, pySubscript, ho, pyAdd, Bind.bind, Except.bind]⟩
      | list xs =>
          exact ⟨.typeError, by simp [e_path, pySubscript, ho, pyAdd, Bind.bind, Except.bind]⟩
      | dict kvs =>
          exact ⟨.typeError, by simp [e_path, pySubscript, ho, pyAdd, Bind.bind, Except.bind]⟩

/-- Witness for claim C7: a default record (owner unset) makes `e_path`
produce an error result. -/
theorem e_path_owner_name_witness :
    dictGet (repo_entry_with_id (.int 1)) "owner" = some PyVal.none ∧
    ∃ err, e_path (repo_entry_with_id (.int 1)) = .error err :=
  ⟨rfl, e_path_owner_name.2 (repo_entry_with_id (.int 1)) (Or.inl rfl)⟩

/-- Counterexample for claim C8: `make_languages` is not idempotent on
its own normalized output; re-applying it wraps each entry in a second
`name` layer. -/
theorem make_languages_not_idempotent_counterexample :
    make_languages (make_languages (.list [.str "Python"])) ≠
      make_languages (.list [.str "Python"]) := by
  simp [make_languages]

/-- Claim C8 (amended): `make_languages` treats a single (non-list) name
like the singleton list of it, but it is not idempotent: applied to its
own normalized output it wraps every element in a further
`name` mapping. -/
theorem make_languages_amended :
    (∀ s : String, make_languages (.str s) = make_languages (.list [.str s])) ∧
    (∀ ns : List PyVal, make_languages (make_languages (.list ns)) =
      .list (ns.map (fun x => .dict [("name", .dict [("name", x)])]))) := by
  refine ⟨fun s => rfl, fun ns => ?_⟩
  simp [make_languages, List.map_map, Function.comp]

/-- Counterexample for claim C9: a serialization failure of class
`TypeError` (which `pickle.dump` raises for unpicklable objects such as
generators) is matched by neither `except IOError` nor
`except PickleError` and propagates to the caller. -/
theorem save_cached_value_propagates_counterexample :
    (save_cached_value ⟨Option.none, Option.none, some ExcClass.typeError⟩ ⟨[], []⟩
      "/data/repos" "langs" PyVal.none).2 = some ExcClass.typeError := rfl

/-- Claim C9 (amended): `save_cached_value` swallows exactly the
failures matched by its two `except` clauses (`IOError`/`OSError` and
`PickleError`), returning normally; it returns normally on success; and
a failure of any other class propagates to the caller. -/
theorem save_cached_value_swallow_amended :
    (∀ (w : WriteOutcome) (fs : FS) (D k : String) (v : PyVal) (e : ExcClass),
        firstExc w = some e → (isIOError e || isPickleError e) = true →
        (save_cached_value w fs D k v).2 = Option.none) ∧
    (∀ (w : WriteOutcome) (fs : FS) (D k : String) (v : PyVal),
        firstExc w = Option.none → (save_cached_value w fs D k v).2 = Option.none) ∧
    (∀ (w : WriteOutcome) (fs : FS) (D k : String) (v : PyVal) (e : ExcClass),
        firstExc w = some e → (isIOError e || isPickleError e) = false →
        (save_cached_value w fs D k v).2 = some e) := by
  refine ⟨?_, ?_, ?_⟩
  · rintro ⟨m, o, d⟩ fs D k v e he hcls
    have hhe : handleExc e = Option.none := by
      rcases (by simpa using hcls : isIOError e = true ∨ isPickleError e = true) with h | h <;>
        simp [handleExc, h]
    cases m with
    | some e' =>
        simp [firstExc] at he
        subst he
        simpa [save_cached_value] using hhe
    | none =>
        cases o with
        | some e' =>
            simp [firstExc] at he
            subst he
            simpa [save_cached_value] using hhe
        | none =>
            cases d with
            | some e' =>
                simp [firstExc] at he
                subst he
                simpa [save_cached_value] using hhe
            | none => simp [firstExc] at he
  · rintro ⟨m, o, d⟩ fs D k v he
    cases m with
    | some e' => simp [firstExc] at he
    | none =>
        cases o with
        | some e' => simp [firstExc] at he
        | none =>
            cases d with
            | some e' => simp [firstExc] at he
            | none => simp [save_cached_value]
  · rintro ⟨m, o, d⟩ fs D k v e he hcls
    have hcls' : isIOError e = false ∧ isPickleError e = false := by simpa using hcls
    have hhe : handleExc e = some e := by simp [handleExc, hcls'.1, hcls'.2]
    cases m with
    | some e' =>
        simp [firstExc] at he
        subst he
        simpa [save_cached_value] using hhe
    | none =>
        cases o with
        | some e' =>
            simp [firstExc] at he
            subst he
            simpa [save_cached_value] using hhe
        | none =>
            cases d with
            | some e' =>
                simp [firstExc] at he
                subst he
                simpa [save_cached_value] using hhe
            | none => simp [firstExc] at he

/-- Witness for claim C9 (amended): an `OSError` from `os.makedirs` is
swallowed and the call returns normally. -/
theorem save_cached_value_swallow_amended_witness :
    firstExc ⟨some ExcClass.osError, Option.none, Option.none⟩ = some ExcClass.osError ∧
    (isIOError ExcClass.osError || isPickleError ExcClass.osError) = true ∧
    (save_cached_value ⟨some ExcClass.osError, Option.none, Option.none⟩ ⟨[], []⟩
      "/data/repos" "langs" PyVal.none).2 = Option.none :=
  ⟨rfl, rfl, save_cached_value_swallow_amended.1
    ⟨some ExcClass.osError, Option.none, Option.none⟩ ⟨[], []⟩
    "/data/repos" "langs" PyVal.none ExcClass.osError rfl rfl⟩

/-- Claim C10: the two duplicated copies of the shard-path function, in
`path.py` and in `casics.py`, are extensionally equal. -/
theorem generate_path_copies_equal (root : String) (repo_id : Int) :
    PathPy.generate_path root repo_id = CasicsPy.generate_path root repo_id := rfl
